import Mathlib

/-!
# Typed CQL value deserialization — shallow embedding

A shallow embedding of `scylla-cql/src/types/deserialize/value.rs`: the
two-phase `type_check` / `deserialize` contract, the built-in scalar, blob,
text and big-number bindings, the `Option` nullability adapter, the
`MaybeEmpty` emptiness adapter, and the structured error taxonomy.

Byte slices are modelled as `List Nat` (each element one byte), cell slots as
`Option FrameSlice`, fallible operations as `Except`.  Machine integers are
modelled as `Int` with explicit two's-complement reduction modulo `2 ^ (8*w)`;
IEEE floats are modelled by their bit patterns (a `Nat` below `2 ^ 32` or
`2 ^ 64`), since the decoder only reassembles bytes and never performs float
arithmetic.
-/

deriving instance DecidableEq for Except

/-- Modelled from the spec: the column type descriptor is an opaque,
externally-produced enumeration identifying the declared database type of a
cell (boolean, fixed-width integer variants, text variants, blob, decimal,
varint, counter, and further scalar types).  Its declaration lives outside
the deserialization module (`frame/response/result.rs`); the payload-carrying
collection variants are irrelevant to the built-in scalar bindings and are
omitted. -/
inductive ColumnType where
  | Ascii
  | Boolean
  | Blob
  | Counter
  | Date
  | Decimal
  | Double
  | Duration
  | Float
  | Int
  | BigInt
  | Text
  | Timestamp
  | Inet
  | SmallInt
  | TinyInt
  | Time
  | Timeuuid
  | Uuid
  | Varint
deriving DecidableEq, Repr

/-- Modelled from the spec: a cell slot's present payload is a zero-copy view
into the frame buffer; we model it by the byte sequence it denotes. -/
abbrev FrameSlice := List Nat

/-- Modelled from the spec: the delegated low-level frame-read failure
(`frame_errors::ParseError`), declared outside this module; modelled as a
message-carrying record. -/
structure ParseError where
  msg : String
deriving DecidableEq, Repr

/-- Mirrors `BuiltinDeserializationErrorKind`.  The `InvalidUtf8` payload
(`std::str::Utf8Error`) is external diagnostic detail and is dropped. -/
inductive BuiltinDeserializationErrorKind where
  | GenericParseError (err : ParseError)
  | ExpectedNonNull
  | ByteLengthMismatch (expected : Nat) (got : Nat)
  | ExpectedAscii
  | InvalidUtf8
deriving DecidableEq, Repr

/-- Mirrors `BuiltinDeserializationError`: Rust type name, CQL column type,
and the discriminated failure kind. -/
structure BuiltinDeserializationError where
  rust_name : String
  cql_type : ColumnType
  kind : BuiltinDeserializationErrorKind
deriving DecidableEq, Repr

/-- In the source, `DeserializationError` is an opaque wrapper around the
boxed error; within this module every raised error is a
`BuiltinDeserializationError`, so we identify the two. -/
abbrev DeserializationError := BuiltinDeserializationError

/-- Mirrors `BuiltinTypeCheckErrorKind`: the only kind is `MismatchedType`
carrying the accepted tag set. -/
inductive BuiltinTypeCheckErrorKind where
  | MismatchedType (expected : List ColumnType)
deriving DecidableEq, Repr

/-- Mirrors `BuiltinTypeCheckError`. -/
structure BuiltinTypeCheckError where
  rust_name : String
  cql_type : ColumnType
  kind : BuiltinTypeCheckErrorKind
deriving DecidableEq, Repr

/-- As with `DeserializationError`, identified with its builtin payload. -/
abbrev TypeCheckError := BuiltinTypeCheckError

/-- Mirrors `mk_deser_err_named` / `mk_deser_err` (the Rust type name is
passed explicitly in place of `std::any::type_name::<T>()`). -/
def mk_deser_err (name : String) (cql_type : ColumnType)
    (kind : BuiltinDeserializationErrorKind) : DeserializationError :=
  ⟨name, cql_type, kind⟩

/-- Mirrors `mk_typck_err_named` / `mk_typck_err`. -/
def mk_typck_err (name : String) (cql_type : ColumnType)
    (kind : BuiltinTypeCheckErrorKind) : TypeCheckError :=
  ⟨name, cql_type, kind⟩

/-- Mirrors `ensure_not_null_frame_slice`: an absent slot becomes
`ExpectedNonNull`. -/
def ensure_not_null_frame_slice (name : String) (typ : ColumnType)
    (v : Option FrameSlice) : Except DeserializationError FrameSlice :=
  match v with
  | none => .error (mk_deser_err name typ .ExpectedNonNull)
  | some s => .ok s

/-- Mirrors `ensure_not_null_slice` (`FrameSlice::as_slice` is the identity
on the modelled byte sequence). -/
def ensure_not_null_slice (name : String) (typ : ColumnType)
    (v : Option FrameSlice) : Except DeserializationError (List Nat) :=
  ensure_not_null_frame_slice name typ v

/-- Mirrors `ensure_not_null_owned` (`FrameSlice::to_bytes` copies the same
byte sequence out of the frame buffer). -/
def ensure_not_null_owned (name : String) (typ : ColumnType)
    (v : Option FrameSlice) : Except DeserializationError (List Nat) :=
  ensure_not_null_frame_slice name typ v

/-- Mirrors `ensure_exact_length::<T, SIZE>`: the `&[u8] -> &[u8; SIZE]`
conversion succeeds exactly when the length is `SIZE`, and otherwise raises
`ByteLengthMismatch { expected: SIZE, got: v.len() }`. -/
def ensure_exact_length (name : String) (size : Nat) (typ : ColumnType)
    (v : List Nat) : Except DeserializationError (List Nat) :=
  if v.length = size then .ok v
  else .error (mk_deser_err name typ (.ByteLengthMismatch size v.length))

/-- Big-endian bytes of `n`, exactly `w` bytes (mirrors `<$t>::to_be_bytes`
on the unsigned bit pattern). -/
def nat_to_be_bytes : Nat → Nat → List Nat
  | 0, _ => []
  | w + 1, n => nat_to_be_bytes w (n / 256) ++ [n % 256]

/-- Value of a big-endian byte sequence. -/
def be_bytes_to_nat : List Nat → Nat
  | [] => 0
  | b :: rest => b * 256 ^ rest.length + be_bytes_to_nat rest

/-- Two's-complement reading of exactly `w` big-endian bytes (mirrors
`<$t>::from_be_bytes` for the signed integer types). -/
def int_from_be_bytes (w : Nat) (s : List Nat) : Int :=
  let n := be_bytes_to_nat s
  if n < 2 ^ (8 * w - 1) then (n : Int) else (n : Int) - 2 ^ (8 * w)

/-- Modelled from the spec: the encoder for a `w`-byte signed integer is its
big-endian two's-complement byte string (the exact-width bytes `encode`
produces). -/
def int_to_be_bytes_tc (w : Nat) (v : Int) : List Nat :=
  nat_to_be_bytes w (v % ((2 : Int) ^ (8 * w))).toNat

theorem nat_to_be_bytes_length (w n : Nat) : (nat_to_be_bytes w n).length = w := by
  induction w generalizing n with
  | zero => rfl
  | succ w ih => simp [nat_to_be_bytes, ih]

theorem be_bytes_to_nat_append_singleton (s : List Nat) (b : Nat) :
    be_bytes_to_nat (s ++ [b]) = be_bytes_to_nat s * 256 + b := by
  induction s with
  | nil => simp [be_bytes_to_nat]
  | cons x rest ih =>
    simp only [List.cons_append, be_bytes_to_nat, List.append_eq, ih,
      List.length_append, List.length_cons, List.length_nil, Nat.zero_add,
      pow_succ]
    ring

theorem be_bytes_to_nat_to_be_bytes (w n : Nat) (h : n < 2 ^ (8 * w)) :
    be_bytes_to_nat (nat_to_be_bytes w n) = n := by
  induction w generalizing n with
  | zero =>
    simp only [Nat.mul_zero, pow_zero, Nat.lt_one_iff] at h
    simp [nat_to_be_bytes, be_bytes_to_nat, h]
  | succ w ih =>
    have hdiv : n / 256 < 2 ^ (8 * w) := by
      have h256 : (0 : Nat) < 256 := by norm_num
      rw [Nat.div_lt_iff_lt_mul h256]
      calc n < 2 ^ (8 * (w + 1)) := h
        _ = 2 ^ (8 * w) * 256 := by rw [Nat.mul_succ, pow_add]; norm_num
    simp only [nat_to_be_bytes, be_bytes_to_nat_append_singleton, ih _ hdiv]
    omega

theorem int_from_be_bytes_to_be_bytes_tc (w : Nat) (hw : 0 < w) (v : Int)
    (h1 : -(2 ^ (8 * w - 1) : Int) ≤ v) (h2 : v < (2 ^ (8 * w - 1) : Int)) :
    int_from_be_bytes w (int_to_be_bytes_tc w v) = v := by
  have hsplit : 8 * w - 1 + 1 = 8 * w := by omega
  have hm2 : (2 : Int) ^ (8 * w) = 2 ^ (8 * w - 1) * 2 := by
    calc (2 : Int) ^ (8 * w) = 2 ^ (8 * w - 1 + 1) := by rw [hsplit]
      _ = 2 ^ (8 * w - 1) * 2 := pow_succ 2 (8 * w - 1)
  have hKpos : (0 : Int) < 2 ^ (8 * w - 1) := by positivity
  have hmpos : (0 : Int) < 2 ^ (8 * w) := by positivity
  have hr0 : 0 ≤ v % ((2 : Int) ^ (8 * w)) := Int.emod_nonneg v (ne_of_gt hmpos)
  have hrlt : v % ((2 : Int) ^ (8 * w)) < 2 ^ (8 * w) := Int.emod_lt_of_pos v hmpos
  have hcast : ((v % ((2 : Int) ^ (8 * w))).toNat : Int) = v % ((2 : Int) ^ (8 * w)) :=
    Int.toNat_of_nonneg hr0
  have hnlt : (v % ((2 : Int) ^ (8 * w))).toNat < 2 ^ (8 * w) := by
    have h := hrlt
    rw [← hcast] at h
    exact_mod_cast h
  have hrv : v % ((2 : Int) ^ (8 * w)) = v ∨
      v % ((2 : Int) ^ (8 * w)) = v + 2 ^ (8 * w) := by
    rcases le_or_lt 0 v with hv | hv
    · exact Or.inl (Int.emod_eq_of_lt hv (by linarith))
    · refine Or.inr ?_
      have hvm : (v + (2 : Int) ^ (8 * w) * 1) % ((2 : Int) ^ (8 * w)) =
          v % ((2 : Int) ^ (8 * w)) :=
        Int.add_mul_emod_self_left v ((2 : Int) ^ (8 * w)) 1
      have h0 : 0 ≤ v + (2 : Int) ^ (8 * w) := by linarith
      have hlt : v + (2 : Int) ^ (8 * w) < 2 ^ (8 * w) := by linarith
      calc v % ((2 : Int) ^ (8 * w))
          = (v + (2 : Int) ^ (8 * w) * 1) % ((2 : Int) ^ (8 * w)) := hvm.symm
        _ = (v + (2 : Int) ^ (8 * w)) % ((2 : Int) ^ (8 * w)) := by ring_nf
        _ = v + 2 ^ (8 * w) := Int.emod_eq_of_lt h0 hlt
  simp only [int_from_be_bytes, int_to_be_bytes_tc,
    be_bytes_to_nat_to_be_bytes w _ hnlt]
  rcases hrv with h | h
  · have hlt : (v % ((2 : Int) ^ (8 * w))).toNat < 2 ^ (8 * w - 1) := by
      have hi : ((v % ((2 : Int) ^ (8 * w))).toNat : Int) <
          ((2 ^ (8 * w - 1) : Nat) : Int) := by
        rw [hcast, h]
        push_cast
        exact h2
      exact_mod_cast hi
    rw [if_pos hlt, hcast, h]
  · have hge : ¬ (v % ((2 : Int) ^ (8 * w))).toNat < 2 ^ (8 * w - 1) := by
      intro hc
      have hi : ((v % ((2 : Int) ^ (8 * w))).toNat : Int) <
          ((2 ^ (8 * w - 1) : Nat) : Int) := by exact_mod_cast hc
      rw [hcast, h] at hi
      push_cast at hi
      linarith
    rw [if_neg hge, hcast, h]
    ring

/-! ## Built-in bindings

Each binding is one expansion of the source's `impl_strict_type` /
`impl_emptiable_strict_type` / `impl_fixed_numeric_type` /
`impl_string_type` macros: a `type_check` produced by `exact_type_check!`
(a `match` on the descriptor) and a `deserialize` given by the conversion
closure.  The Rust type name baked into errors by
`std::any::type_name::<T>()` is written out literally. -/

/-- The `deserialize` body generated by `impl_fixed_numeric_type!` for the signed
integer types: require a present slot, require exactly `size` bytes, then
`from_be_bytes` (two's complement). -/
def fixed_numeric_deserialize (name : String) (size : Nat) (typ : ColumnType)
    (v : Option FrameSlice) : Except DeserializationError Int :=
  match ensure_not_null_slice name typ v with
  | .error e => .error e
  | .ok val =>
    match ensure_exact_length name size typ val with
    | .error e => .error e
    | .ok arr => .ok (int_from_be_bytes size arr)

/-- The `deserialize` body generated by `impl_fixed_numeric_type!` for `f32` /
`f64`: identical slot handling; `from_be_bytes` reassembles the IEEE bit
pattern, modelled as the unsigned big-endian value. -/
def fixed_float_deserialize (name : String) (size : Nat) (typ : ColumnType)
    (v : Option FrameSlice) : Except DeserializationError Nat :=
  match ensure_not_null_slice name typ v with
  | .error e => .error e
  | .ok val =>
    match ensure_exact_length name size typ val with
    | .error e => .error e
    | .ok arr => .ok (be_bytes_to_nat arr)

/-- The `exact_type_check!(typ, Boolean)` for `bool`. -/
def bool_type_check (typ : ColumnType) : Except TypeCheckError Unit :=
  match typ with
  | ColumnType.Boolean => .ok ()
  | _ => .error (mk_typck_err "bool" typ (.MismatchedType [ColumnType.Boolean]))

/-- The `deserialize` for `bool`: one byte, nonzero means `true`. -/
def bool_deserialize (typ : ColumnType) (v : Option FrameSlice) :
    Except DeserializationError Bool :=
  match ensure_not_null_slice "bool" typ v with
  | .error e => .error e
  | .ok val =>
    match ensure_exact_length "bool" 1 typ val with
    | .error e => .error e
    | .ok arr => .ok (arr.headD 0 != 0)

/-- The `exact_type_check!(typ, TinyInt)` for `i8`. -/
def i8_type_check (typ : ColumnType) : Except TypeCheckError Unit :=
  match typ with
  | ColumnType.TinyInt => .ok ()
  | _ => .error (mk_typck_err "i8" typ (.MismatchedType [ColumnType.TinyInt]))

/-- The `impl_fixed_numeric_type!(i8, TinyInt)` deserialize. -/
def i8_deserialize : ColumnType → Option FrameSlice → Except DeserializationError Int :=
  fixed_numeric_deserialize "i8" 1

/-- The `exact_type_check!(typ, SmallInt)` for `i16`. -/
def i16_type_check (typ : ColumnType) : Except TypeCheckError Unit :=
  match typ with
  | ColumnType.SmallInt => .ok ()
  | _ => .error (mk_typck_err "i16" typ (.MismatchedType [ColumnType.SmallInt]))

/-- The `impl_fixed_numeric_type!(i16, SmallInt)` deserialize. -/
def i16_deserialize : ColumnType → Option FrameSlice → Except DeserializationError Int :=
  fixed_numeric_deserialize "i16" 2

/-- The `exact_type_check!(typ, Int)` for `i32`. -/
def i32_type_check (typ : ColumnType) : Except TypeCheckError Unit :=
  match typ with
  | ColumnType.Int => .ok ()
  | _ => .error (mk_typck_err "i32" typ (.MismatchedType [ColumnType.Int]))

/-- The `impl_fixed_numeric_type!(i32, Int)` deserialize. -/
def i32_deserialize : ColumnType → Option FrameSlice → Except DeserializationError Int :=
  fixed_numeric_deserialize "i32" 4

/-- The `exact_type_check!(typ, BigInt, Counter)` for `i64`. -/
def i64_type_check (typ : ColumnType) : Except TypeCheckError Unit :=
  match typ with
  | ColumnType.BigInt => .ok ()
  | ColumnType.Counter => .ok ()
  | _ => .error (mk_typck_err "i64" typ
      (.MismatchedType [ColumnType.BigInt, ColumnType.Counter]))

/-- The `impl_fixed_numeric_type!(i64, [BigInt | Counter])` deserialize. -/
def i64_deserialize : ColumnType → Option FrameSlice → Except DeserializationError Int :=
  fixed_numeric_deserialize "i64" 8

/-- The `exact_type_check!(typ, Float)` for `f32`. -/
def f32_type_check (typ : ColumnType) : Except TypeCheckError Unit :=
  match typ with
  | ColumnType.Float => .ok ()
  | _ => .error (mk_typck_err "f32" typ (.MismatchedType [ColumnType.Float]))

/-- The `impl_fixed_numeric_type!(f32, Float)` deserialize (bit pattern). -/
def f32_deserialize : ColumnType → Option FrameSlice → Except DeserializationError Nat :=
  fixed_float_deserialize "f32" 4

/-- The `exact_type_check!(typ, Double)` for `f64`. -/
def f64_type_check (typ : ColumnType) : Except TypeCheckError Unit :=
  match typ with
  | ColumnType.Double => .ok ()
  | _ => .error (mk_typck_err "f64" typ (.MismatchedType [ColumnType.Double]))

/-- The `impl_fixed_numeric_type!(f64, Double)` deserialize (bit pattern). -/
def f64_deserialize : ColumnType → Option FrameSlice → Except DeserializationError Nat :=
  fixed_float_deserialize "f64" 8

/-! ## Big-number, blob, text and counter bindings -/

/-- Mirrors `CqlVarint`: an arbitrary-precision integer holding its
sign-extended big-endian byte representation verbatim
(`from_signed_bytes_be_slice` stores the slice). -/
structure CqlVarint where
  bytes : List Nat
deriving DecidableEq, Repr

/-- The integer a `CqlVarint` denotes: two's-complement reading of all of its
bytes (an empty sequence denotes 0). -/
def CqlVarint.toInt (v : CqlVarint) : Int :=
  int_from_be_bytes v.bytes.length v.bytes

/-- The `exact_type_check!(typ, Varint)` for `CqlVarint`. -/
def cql_varint_type_check (typ : ColumnType) : Except TypeCheckError Unit :=
  match typ with
  | ColumnType.Varint => .ok ()
  | _ => .error (mk_typck_err "CqlVarint" typ (.MismatchedType [ColumnType.Varint]))

/-- The `deserialize` for `CqlVarint`: any present slot, stored verbatim. -/
def cql_varint_deserialize (typ : ColumnType) (v : Option FrameSlice) :
    Except DeserializationError CqlVarint :=
  match ensure_not_null_slice "CqlVarint" typ v with
  | .error e => .error e
  | .ok val => .ok ⟨val⟩

/-- Mirrors `CqlDecimal`: unscaled integer (a `CqlVarint`) plus a 32-bit
scale. -/
structure CqlDecimal where
  int_val : CqlVarint
  scale : Int
deriving DecidableEq, Repr

/-- Modelled from the spec: `types::read_int` (declared in `frame/types`,
outside this module) reads a big-endian signed 32-bit integer from the front
of the slice, advancing it; it fails with a frame-read error when fewer than
4 bytes remain. -/
def read_int (s : List Nat) : Except ParseError (Int × List Nat) :=
  if s.length < 4 then .error ⟨"read_int: failed to read 4 bytes"⟩
  else .ok (int_from_be_bytes 4 (s.take 4), s.drop 4)

/-- The `exact_type_check!(typ, Decimal)` for `CqlDecimal`. -/
def cql_decimal_type_check (typ : ColumnType) : Except TypeCheckError Unit :=
  match typ with
  | ColumnType.Decimal => .ok ()
  | _ => .error (mk_typck_err "CqlDecimal" typ (.MismatchedType [ColumnType.Decimal]))

/-- The `deserialize` for `CqlDecimal`: present slot, `read_int` the scale, then
`from_signed_be_bytes_slice_and_exponent` on the remaining bytes. -/
def cql_decimal_deserialize (typ : ColumnType) (v : Option FrameSlice) :
    Except DeserializationError CqlDecimal :=
  match ensure_not_null_slice "CqlDecimal" typ v with
  | .error e => .error e
  | .ok val =>
    match read_int val with
    | .error err =>
        .error (mk_deser_err "CqlDecimal" typ (.GenericParseError err))
    | .ok (scale, rest) => .ok ⟨⟨rest⟩, scale⟩

/-- Mirrors `Counter`: a distinct wrapper around a signed 64-bit value. -/
structure Counter where
  val : Int
deriving DecidableEq, Repr

/-- The `exact_type_check!(typ, Counter)` for `Counter`. -/
def counter_type_check (typ : ColumnType) : Except TypeCheckError Unit :=
  match typ with
  | ColumnType.Counter => .ok ()
  | _ => .error (mk_typck_err "Counter" typ (.MismatchedType [ColumnType.Counter]))

/-- The `deserialize` for `Counter`: exactly 8 bytes, big-endian signed 64-bit. -/
def counter_deserialize (typ : ColumnType) (v : Option FrameSlice) :
    Except DeserializationError Counter :=
  match ensure_not_null_slice "Counter" typ v with
  | .error e => .error e
  | .ok val =>
    match ensure_exact_length "Counter" 8 typ val with
    | .error e => .error e
    | .ok arr => .ok ⟨int_from_be_bytes 8 arr⟩

/-- The `exact_type_check!(typ, Blob)` for `&[u8]`. -/
def blob_slice_type_check (typ : ColumnType) : Except TypeCheckError Unit :=
  match typ with
  | ColumnType.Blob => .ok ()
  | _ => .error (mk_typck_err "&[u8]" typ (.MismatchedType [ColumnType.Blob]))

/-- The `deserialize` for `&[u8]`: any present slot, returned as a borrowed
view. -/
def blob_slice_deserialize (typ : ColumnType) (v : Option FrameSlice) :
    Except DeserializationError (List Nat) :=
  ensure_not_null_slice "&[u8]" typ v

/-- The `exact_type_check!(typ, Blob)` for `Vec<u8>`. -/
def blob_vec_type_check (typ : ColumnType) : Except TypeCheckError Unit :=
  match typ with
  | ColumnType.Blob => .ok ()
  | _ => .error (mk_typck_err "Vec<u8>" typ (.MismatchedType [ColumnType.Blob]))

/-- The `deserialize` for `Vec<u8>`: any present slot, copied (`to_vec`). -/
def blob_vec_deserialize (typ : ColumnType) (v : Option FrameSlice) :
    Except DeserializationError (List Nat) :=
  ensure_not_null_slice "Vec<u8>" typ v

/-- The `exact_type_check!(typ, Blob)` for `Bytes`. -/
def blob_bytes_type_check (typ : ColumnType) : Except TypeCheckError Unit :=
  match typ with
  | ColumnType.Blob => .ok ()
  | _ => .error (mk_typck_err "Bytes" typ (.MismatchedType [ColumnType.Blob]))

/-- The `deserialize` for `Bytes`: any present slot, as an owned shared buffer
(`ensure_not_null_owned`). -/
def blob_bytes_deserialize (typ : ColumnType) (v : Option FrameSlice) :
    Except DeserializationError (List Nat) :=
  ensure_not_null_owned "Bytes" typ v

/-! ## Text bindings -/

/-- The `<[u8]>::is_ascii`: every byte is at most `0x7F`. -/
def is_ascii_bytes (s : List Nat) : Bool :=
  s.all (fun b => decide (b ≤ 0x7F))

/-- A UTF-8 continuation byte (`0x80..=0xBF`). -/
def is_utf8_cont (b : Nat) : Bool :=
  decide (0x80 ≤ b) && decide (b ≤ 0xBF)

/-- The byte-class state machine of well-formed UTF-8 (RFC 3629), rejecting
overlong forms, surrogates and code points above `U+10FFFF`.  `k` is the
number of pending continuation bytes; the next one must lie in `[lo, hi]`
and any further ones in `[0x80, 0xBF]`. -/
def utf8_run : Nat → Nat → Nat → List Nat → Bool
  | 0, _, _, [] => true
  | _ + 1, _, _, [] => false
  | 0, _, _, b :: rest =>
    if b ≤ 0x7F then utf8_run 0 0 0 rest
    else if 0xC2 ≤ b ∧ b ≤ 0xDF then utf8_run 1 0x80 0xBF rest
    else if b = 0xE0 then utf8_run 2 0xA0 0xBF rest
    else if (0xE1 ≤ b ∧ b ≤ 0xEC) ∨ b = 0xEE ∨ b = 0xEF then
      utf8_run 2 0x80 0xBF rest
    else if b = 0xED then utf8_run 2 0x80 0x9F rest
    else if b = 0xF0 then utf8_run 3 0x90 0xBF rest
    else if 0xF1 ≤ b ∧ b ≤ 0xF3 then utf8_run 3 0x80 0xBF rest
    else if b = 0xF4 then utf8_run 3 0x80 0x8F rest
    else false
  | k + 1, lo, hi, b :: rest =>
    if lo ≤ b ∧ b ≤ hi then utf8_run k 0x80 0xBF rest else false

/-- The `std::str::from_utf8` succeeds exactly on well-formed UTF-8. -/
def valid_utf8 (s : List Nat) : Bool :=
  utf8_run 0 0 0 s

/-- Mirrors `check_ascii`: under the `Ascii` descriptor a non-ASCII byte
raises `ExpectedAscii`; under every other descriptor the check passes. -/
def check_ascii (name : String) (typ : ColumnType) (s : List Nat) :
    Except DeserializationError Unit :=
  match typ with
  | ColumnType.Ascii =>
    if is_ascii_bytes s then .ok ()
    else .error (mk_deser_err name typ .ExpectedAscii)
  | _ => .ok ()

/-- The `exact_type_check!(typ, Ascii, Text)` for `&str` (from
`impl_string_type!`). -/
def str_type_check (typ : ColumnType) : Except TypeCheckError Unit :=
  match typ with
  | ColumnType.Ascii => .ok ()
  | ColumnType.Text => .ok ()
  | _ => .error (mk_typck_err "&str" typ
      (.MismatchedType [ColumnType.Ascii, ColumnType.Text]))

/-- The `deserialize` for `&str`: present slot, `check_ascii`, then
`std::str::from_utf8`; the decoded string is the same byte sequence viewed as
text. -/
def str_deserialize (typ : ColumnType) (v : Option FrameSlice) :
    Except DeserializationError (List Nat) :=
  match ensure_not_null_slice "&str" typ v with
  | .error e => .error e
  | .ok val =>
    match check_ascii "&str" typ val with
    | .error e => .error e
    | .ok _ =>
      if valid_utf8 val then .ok val
      else .error (mk_deser_err "&str" typ .InvalidUtf8)

/-- The `exact_type_check!(typ, Ascii, Text)` for `String`. -/
def string_type_check (typ : ColumnType) : Except TypeCheckError Unit :=
  match typ with
  | ColumnType.Ascii => .ok ()
  | ColumnType.Text => .ok ()
  | _ => .error (mk_typck_err "String" typ
      (.MismatchedType [ColumnType.Ascii, ColumnType.Text]))

/-- The `deserialize` for `String`: as for `&str`, then `to_string` (an owned
copy of the same bytes). -/
def string_deserialize (typ : ColumnType) (v : Option FrameSlice) :
    Except DeserializationError (List Nat) :=
  match ensure_not_null_slice "String" typ v with
  | .error e => .error e
  | .ok val =>
    match check_ascii "String" typ val with
    | .error e => .error e
    | .ok _ =>
      if valid_utf8 val then .ok val
      else .error (mk_deser_err "String" typ .InvalidUtf8)

/-! ## Adapters and the dynamic-value fallback -/

/-- Mirrors `MaybeEmpty<T>`: the empty-capable wrapper for types carrying the
`Emptiable` marker. -/
inductive MaybeEmpty (α : Type) where
  | Empty
  | Value (v : α)
deriving DecidableEq, Repr

/-- The `type_check` of `Option<T>` delegates verbatim to `T::type_check`. -/
def option_type_check (inner : ColumnType → Except TypeCheckError Unit)
    (typ : ColumnType) : Except TypeCheckError Unit :=
  inner typ

/-- The `deserialize` of `Option<T>`:
`v.map(|_| T::deserialize(typ, v)).transpose()` — an absent slot yields
`none` without consulting the inner decoder, a present slot lifts the inner
result. -/
def option_deserialize {α : Type}
    (inner : ColumnType → Option FrameSlice → Except DeserializationError α)
    (typ : ColumnType) (v : Option FrameSlice) :
    Except DeserializationError (Option α) :=
  match v with
  | none => .ok none
  | some s =>
    match inner typ (some s) with
    | .error e => .error e
    | .ok r => .ok (some r)

/-- The `type_check` of `MaybeEmpty<T>` delegates verbatim to `T::type_check`.
The `Emptiable` marker trait is empty and has no behavioural content. -/
def maybe_empty_type_check (inner : ColumnType → Except TypeCheckError Unit)
    (typ : ColumnType) : Except TypeCheckError Unit :=
  inner typ

/-- The `deserialize` of `MaybeEmpty<T>`: require a present slot; an empty slot
yields `Empty` without consulting the inner decoder; otherwise the inner
result (on the original slot) is wrapped as `Value`.  `name` stands for
`type_name::<MaybeEmpty<T>>()`. -/
def maybe_empty_deserialize {α : Type} (name : String)
    (inner : ColumnType → Option FrameSlice → Except DeserializationError α)
    (typ : ColumnType) (v : Option FrameSlice) :
    Except DeserializationError (MaybeEmpty α) :=
  match ensure_not_null_slice name typ v with
  | .error e => .error e
  | .ok val =>
    if val.isEmpty then .ok .Empty
    else
      match inner typ v with
      | .error e => .error e
      | .ok r => .ok (.Value r)

/-- The `CqlValue::type_check` accepts every possible CQL type. -/
def cql_value_type_check (_typ : ColumnType) : Except TypeCheckError Unit :=
  .ok ()

/-- The `CqlValue::deserialize`: require a present slot, then delegate to the
generic runtime-typed value reader `deser_cql_value` (external to this
module, hence a parameter), wrapping its failure as `GenericParseError`. -/
def cql_value_deserialize {α : Type}
    (deser_cql_value : ColumnType → List Nat → Except ParseError α)
    (typ : ColumnType) (v : Option FrameSlice) :
    Except DeserializationError α :=
  match ensure_not_null_slice "CqlValue" typ v with
  | .error e => .error e
  | .ok val =>
    match deser_cql_value typ val with
    | .error err => .error (mk_deser_err "CqlValue" typ (.GenericParseError err))
    | .ok c => .ok c

/-- Modelled from the spec: the boolean encoder writes the single byte 1 for
`true` and 0 for `false`. -/
def bool_to_be_bytes (b : Bool) : List Nat :=
  [if b then 1 else 0]

/-! ## General lemmas about the bindings -/

theorem fixed_numeric_deserialize_exact (name : String) (size : Nat)
    (typ : ColumnType) (s : List Nat) (h : s.length = size) :
    fixed_numeric_deserialize name size typ (some s) =
      .ok (int_from_be_bytes size s) := by
  simp [fixed_numeric_deserialize, ensure_not_null_slice,
    ensure_not_null_frame_slice, ensure_exact_length, h]

theorem fixed_numeric_deserialize_wrong_length (name : String) (size : Nat)
    (typ : ColumnType) (s : List Nat) (h : s.length ≠ size) :
    fixed_numeric_deserialize name size typ (some s) =
      .error (mk_deser_err name typ (.ByteLengthMismatch size s.length)) := by
  simp [fixed_numeric_deserialize, ensure_not_null_slice,
    ensure_not_null_frame_slice, ensure_exact_length, h]

theorem fixed_float_deserialize_exact (name : String) (size : Nat)
    (typ : ColumnType) (s : List Nat) (h : s.length = size) :
    fixed_float_deserialize name size typ (some s) = .ok (be_bytes_to_nat s) := by
  simp [fixed_float_deserialize, ensure_not_null_slice,
    ensure_not_null_frame_slice, ensure_exact_length, h]

theorem fixed_float_deserialize_wrong_length (name : String) (size : Nat)
    (typ : ColumnType) (s : List Nat) (h : s.length ≠ size) :
    fixed_float_deserialize name size typ (some s) =
      .error (mk_deser_err name typ (.ByteLengthMismatch size s.length)) := by
  simp [fixed_float_deserialize, ensure_not_null_slice,
    ensure_not_null_frame_slice, ensure_exact_length, h]

theorem fixed_numeric_roundtrip (name : String) (w : Nat) (hw : 0 < w)
    (typ : ColumnType) (v : Int) (h1 : -(2 ^ (8 * w - 1) : Int) ≤ v)
    (h2 : v < (2 ^ (8 * w - 1) : Int)) :
    fixed_numeric_deserialize name w typ (some (int_to_be_bytes_tc w v)) =
      .ok v := by
  have hl : (int_to_be_bytes_tc w v).length = w := by
    simp [int_to_be_bytes_tc, nat_to_be_bytes_length]
  rw [fixed_numeric_deserialize_exact name w typ _ hl,
    int_from_be_bytes_to_be_bytes_tc w hw v h1 h2]

theorem fixed_float_roundtrip (name : String) (w : Nat) (typ : ColumnType)
    (n : Nat) (h : n < 2 ^ (8 * w)) :
    fixed_float_deserialize name w typ (some (nat_to_be_bytes w n)) = .ok n := by
  rw [fixed_float_deserialize_exact name w typ _ (nat_to_be_bytes_length w n),
    be_bytes_to_nat_to_be_bytes w n h]

theorem valid_utf8_of_is_ascii (s : List Nat) (h : is_ascii_bytes s = true) :
    valid_utf8 s = true := by
  induction s with
  | nil => rfl
  | cons b rest ih =>
    simp only [is_ascii_bytes, List.all_cons, Bool.and_eq_true,
      decide_eq_true_eq] at h
    obtain ⟨hb, hrest⟩ := h
    have hstep : valid_utf8 (b :: rest) = valid_utf8 rest := by
      show utf8_run 0 0 0 (b :: rest) = utf8_run 0 0 0 rest
      rw [utf8_run, if_pos hb]
    rw [hstep]
    exact ih (by simpa [is_ascii_bytes] using hrest)

/-! ## Claim theorems -/

/-- C9: the dynamic-value fallback (`CqlValue`) accepts every descriptor in
`type_check`, and its `deserialize` on an absent cell slot raises
`ExpectedNonNull` no matter which runtime-typed parser it delegates to —
absence must be handled by the nullability adapter instead. -/
theorem cql_value_accepts_all_and_rejects_absent {α : Type}
    (p : ColumnType → List Nat → Except ParseError α) (typ t : ColumnType) :
    cql_value_type_check t = .ok () ∧
    cql_value_deserialize p typ none =
      .error (mk_deser_err "CqlValue" typ .ExpectedNonNull) :=
  ⟨rfl, rfl⟩

/-- C5: the nullability adapter `Option<T>` decodes an absent slot to `none`
without consulting the inner decoder and without error; on a present slot
(zero-length included) it returns `some r` exactly when the inner decode
returns `r`, and propagates the inner error otherwise. -/
theorem option_adapter_spec {α : Type}
    (inner : ColumnType → Option FrameSlice → Except DeserializationError α)
    (typ : ColumnType) (s : List Nat) :
    option_deserialize inner typ none = .ok none ∧
    (∀ r : α, option_deserialize inner typ (some s) = .ok (some r) ↔
      inner typ (some s) = .ok r) ∧
    (∀ e : DeserializationError,
      option_deserialize inner typ (some s) = .error e ↔
      inner typ (some s) = .error e) := by
  refine ⟨rfl, fun r => ?_, fun e => ?_⟩ <;>
    cases h : inner typ (some s) <;>
      simp [option_deserialize, h]

/-- Closed instance of `option_adapter_spec` at the `i32` binding. -/
theorem option_adapter_spec_witness :
    option_deserialize i32_deserialize ColumnType.Int none = .ok none ∧
    (option_deserialize i32_deserialize ColumnType.Int (some [1, 2, 3, 4]) =
        .ok (some (int_from_be_bytes 4 [1, 2, 3, 4])) ↔
      i32_deserialize ColumnType.Int (some [1, 2, 3, 4]) =
        .ok (int_from_be_bytes 4 [1, 2, 3, 4])) := by
  obtain ⟨h1, h2, _⟩ :=
    option_adapter_spec i32_deserialize ColumnType.Int [1, 2, 3, 4]
  exact ⟨h1, h2 _⟩

/-- C4: the emptiness adapter `MaybeEmpty<T>` rejects an absent slot with
`ExpectedNonNull`; a present zero-length slot yields `Empty` for every inner
decoder (so the inner decode is never consulted); a present non-empty slot
yields `Value r` exactly when the inner decode on that slot yields `r`, and
propagates the inner error otherwise. -/
theorem maybe_empty_adapter_spec {α : Type} (name : String)
    (inner : ColumnType → Option FrameSlice → Except DeserializationError α)
    (typ : ColumnType) (s : List Nat) :
    maybe_empty_deserialize name inner typ none =
      .error (mk_deser_err name typ .ExpectedNonNull) ∧
    maybe_empty_deserialize name inner typ (some []) = .ok .Empty ∧
    (s ≠ [] →
      (∀ r : α,
        maybe_empty_deserialize name inner typ (some s) = .ok (.Value r) ↔
        inner typ (some s) = .ok r) ∧
      (∀ e : DeserializationError,
        maybe_empty_deserialize name inner typ (some s) = .error e ↔
        inner typ (some s) = .error e)) := by
  refine ⟨rfl, rfl, fun hs => ⟨fun r => ?_, fun e => ?_⟩⟩ <;>
    · have hemp : s.isEmpty = false := by
        cases s with
        | nil => exact absurd rfl hs
        | cons a l => rfl
      cases h : inner typ (some s) <;>
        simp [maybe_empty_deserialize, ensure_not_null_slice,
          ensure_not_null_frame_slice, hemp, h]

/-- Closed instance of `maybe_empty_adapter_spec` at the `i32` binding with
the non-empty slot `[1, 2, 3, 4]`. -/
theorem maybe_empty_adapter_spec_witness :
    maybe_empty_deserialize "MaybeEmpty<i32>" i32_deserialize ColumnType.Int
        none =
      .error (mk_deser_err "MaybeEmpty<i32>" ColumnType.Int .ExpectedNonNull) ∧
    maybe_empty_deserialize "MaybeEmpty<i32>" i32_deserialize ColumnType.Int
        (some []) = .ok .Empty ∧
    (maybe_empty_deserialize "MaybeEmpty<i32>" i32_deserialize ColumnType.Int
        (some [1, 2, 3, 4]) =
        .ok (.Value (int_from_be_bytes 4 [1, 2, 3, 4])) ↔
      i32_deserialize ColumnType.Int (some [1, 2, 3, 4]) =
        .ok (int_from_be_bytes 4 [1, 2, 3, 4])) := by
  obtain ⟨h1, h2, h3⟩ := maybe_empty_adapter_spec "MaybeEmpty<i32>"
    i32_deserialize ColumnType.Int [1, 2, 3, 4]
  exact ⟨h1, h2, (h3 (by decide)).1 _⟩

/-- C2 counterexample: the blob and text bindings are NOT excepted from
rejecting an absent slot — each of them returns `ExpectedNonNull` on `none`,
exactly like every other binding. -/
theorem blob_text_reject_absent_counterexample :
    blob_slice_deserialize ColumnType.Blob none =
      .error (mk_deser_err "&[u8]" ColumnType.Blob .ExpectedNonNull) ∧
    blob_vec_deserialize ColumnType.Blob none =
      .error (mk_deser_err "Vec<u8>" ColumnType.Blob .ExpectedNonNull) ∧
    blob_bytes_deserialize ColumnType.Blob none =
      .error (mk_deser_err "Bytes" ColumnType.Blob .ExpectedNonNull) ∧
    str_deserialize ColumnType.Text none =
      .error (mk_deser_err "&str" ColumnType.Text .ExpectedNonNull) ∧
    string_deserialize ColumnType.Text none =
      .error (mk_deser_err "String" ColumnType.Text .ExpectedNonNull) :=
  ⟨rfl, rfl, rfl, rfl, rfl⟩

/-- C2 (amended): every built-in binding — the blob and text bindings
included — returns `ExpectedNonNull` when `deserialize` is called on an
absent cell slot, whatever the descriptor. -/
theorem all_bindings_reject_absent (typ : ColumnType) :
    bool_deserialize typ none =
      .error (mk_deser_err "bool" typ .ExpectedNonNull) ∧
    i8_deserialize typ none = .error (mk_deser_err "i8" typ .ExpectedNonNull) ∧
    i16_deserialize typ none =
      .error (mk_deser_err "i16" typ .ExpectedNonNull) ∧
    i32_deserialize typ none =
      .error (mk_deser_err "i32" typ .ExpectedNonNull) ∧
    i64_deserialize typ none =
      .error (mk_deser_err "i64" typ .ExpectedNonNull) ∧
    f32_deserialize typ none =
      .error (mk_deser_err "f32" typ .ExpectedNonNull) ∧
    f64_deserialize typ none =
      .error (mk_deser_err "f64" typ .ExpectedNonNull) ∧
    cql_varint_deserialize typ none =
      .error (mk_deser_err "CqlVarint" typ .ExpectedNonNull) ∧
    cql_decimal_deserialize typ none =
      .error (mk_deser_err "CqlDecimal" typ .ExpectedNonNull) ∧
    counter_deserialize typ none =
      .error (mk_deser_err "Counter" typ .ExpectedNonNull) ∧
    blob_slice_deserialize typ none =
      .error (mk_deser_err "&[u8]" typ .ExpectedNonNull) ∧
    blob_vec_deserialize typ none =
      .error (mk_deser_err "Vec<u8>" typ .ExpectedNonNull) ∧
    blob_bytes_deserialize typ none =
      .error (mk_deser_err "Bytes" typ .ExpectedNonNull) ∧
    str_deserialize typ none =
      .error (mk_deser_err "&str" typ .ExpectedNonNull) ∧
    string_deserialize typ none =
      .error (mk_deser_err "String" typ .ExpectedNonNull) :=
  ⟨rfl, rfl, rfl, rfl, rfl, rfl, rfl, rfl, rfl, rfl, rfl, rfl, rfl, rfl, rfl⟩

/-- C7: each fixed-width binding rejects a present slot whose byte length
differs from its width with `ByteLengthMismatch` carrying the expected width
and the actual length. -/
theorem fixed_width_length_mismatch (typ : ColumnType) (s : List Nat) :
    (s.length ≠ 1 → bool_deserialize typ (some s) =
      .error (mk_deser_err "bool" typ (.ByteLengthMismatch 1 s.length))) ∧
    (s.length ≠ 1 → i8_deserialize typ (some s) =
      .error (mk_deser_err "i8" typ (.ByteLengthMismatch 1 s.length))) ∧
    (s.length ≠ 2 → i16_deserialize typ (some s) =
      .error (mk_deser_err "i16" typ (.ByteLengthMismatch 2 s.length))) ∧
    (s.length ≠ 4 → i32_deserialize typ (some s) =
      .error (mk_deser_err "i32" typ (.ByteLengthMismatch 4 s.length))) ∧
    (s.length ≠ 8 → i64_deserialize typ (some s) =
      .error (mk_deser_err "i64" typ (.ByteLengthMismatch 8 s.length))) ∧
    (s.length ≠ 4 → f32_deserialize typ (some s) =
      .error (mk_deser_err "f32" typ (.ByteLengthMismatch 4 s.length))) ∧
    (s.length ≠ 8 → f64_deserialize typ (some s) =
      .error (mk_deser_err "f64" typ (.ByteLengthMismatch 8 s.length))) ∧
    (s.length ≠ 8 → counter_deserialize typ (some s) =
      .error (mk_deser_err "Counter" typ (.ByteLengthMismatch 8 s.length))) := by
  refine ⟨fun h => ?_, fun h => fixed_numeric_deserialize_wrong_length _ _ _ _ h,
    fun h => fixed_numeric_deserialize_wrong_length _ _ _ _ h,
    fun h => fixed_numeric_deserialize_wrong_length _ _ _ _ h,
    fun h => fixed_numeric_deserialize_wrong_length _ _ _ _ h,
    fun h => fixed_float_deserialize_wrong_length _ _ _ _ h,
    fun h => fixed_float_deserialize_wrong_length _ _ _ _ h,
    fun h => ?_⟩
  · simp [bool_deserialize, ensure_not_null_slice, ensure_not_null_frame_slice,
      ensure_exact_length, h]
  · simp [counter_deserialize, ensure_not_null_slice,
      ensure_not_null_frame_slice, ensure_exact_length, h]

/-- Closed instance of `fixed_width_length_mismatch` at the empty present
slot, whose length 0 differs from every fixed width. -/
theorem fixed_width_length_mismatch_witness :
    bool_deserialize ColumnType.Boolean (some []) =
      .error (mk_deser_err "bool" ColumnType.Boolean
        (.ByteLengthMismatch 1 0)) ∧
    i8_deserialize ColumnType.TinyInt (some []) =
      .error (mk_deser_err "i8" ColumnType.TinyInt (.ByteLengthMismatch 1 0)) ∧
    i16_deserialize ColumnType.SmallInt (some []) =
      .error (mk_deser_err "i16" ColumnType.SmallInt
        (.ByteLengthMismatch 2 0)) ∧
    i32_deserialize ColumnType.Int (some []) =
      .error (mk_deser_err "i32" ColumnType.Int (.ByteLengthMismatch 4 0)) ∧
    i64_deserialize ColumnType.BigInt (some []) =
      .error (mk_deser_err "i64" ColumnType.BigInt (.ByteLengthMismatch 8 0)) ∧
    f32_deserialize ColumnType.Float (some []) =
      .error (mk_deser_err "f32" ColumnType.Float (.ByteLengthMismatch 4 0)) ∧
    f64_deserialize ColumnType.Double (some []) =
      .error (mk_deser_err "f64" ColumnType.Double (.ByteLengthMismatch 8 0)) ∧
    counter_deserialize ColumnType.Counter (some []) =
      .error (mk_deser_err "Counter" ColumnType.Counter
        (.ByteLengthMismatch 8 0)) := by
  exact ⟨(fixed_width_length_mismatch ColumnType.Boolean []).1 (by decide),
    (fixed_width_length_mismatch ColumnType.TinyInt []).2.1 (by decide),
    (fixed_width_length_mismatch ColumnType.SmallInt []).2.2.1 (by decide),
    (fixed_width_length_mismatch ColumnType.Int []).2.2.2.1 (by decide),
    (fixed_width_length_mismatch ColumnType.BigInt []).2.2.2.2.1 (by decide),
    (fixed_width_length_mismatch ColumnType.Float []).2.2.2.2.2.1 (by decide),
    (fixed_width_length_mismatch ColumnType.Double []).2.2.2.2.2.2.1
      (by decide),
    (fixed_width_length_mismatch ColumnType.Counter []).2.2.2.2.2.2.2
      (by decide)⟩

/-- C6: for every built-in binding with accepted tag set `A`, `type_check`
succeeds exactly on members of `A`, and on a non-member fails with
`MismatchedType` whose expected field is `A` itself. -/
theorem type_check_exact_membership (t : ColumnType) :
    bool_type_check t = (if t ∈ [ColumnType.Boolean] then .ok ()
      else .error (mk_typck_err "bool" t
        (.MismatchedType [ColumnType.Boolean]))) ∧
    i8_type_check t = (if t ∈ [ColumnType.TinyInt] then .ok ()
      else .error (mk_typck_err "i8" t
        (.MismatchedType [ColumnType.TinyInt]))) ∧
    i16_type_check t = (if t ∈ [ColumnType.SmallInt] then .ok ()
      else .error (mk_typck_err "i16" t
        (.MismatchedType [ColumnType.SmallInt]))) ∧
    i32_type_check t = (if t ∈ [ColumnType.Int] then .ok ()
      else .error (mk_typck_err "i32" t (.MismatchedType [ColumnType.Int]))) ∧
    i64_type_check t =
      (if t ∈ [ColumnType.BigInt, ColumnType.Counter] then .ok ()
      else .error (mk_typck_err "i64" t
        (.MismatchedType [ColumnType.BigInt, ColumnType.Counter]))) ∧
    f32_type_check t = (if t ∈ [ColumnType.Float] then .ok ()
      else .error (mk_typck_err "f32" t
        (.MismatchedType [ColumnType.Float]))) ∧
    f64_type_check t = (if t ∈ [ColumnType.Double] then .ok ()
      else .error (mk_typck_err "f64" t
        (.MismatchedType [ColumnType.Double]))) ∧
    cql_varint_type_check t = (if t ∈ [ColumnType.Varint] then .ok ()
      else .error (mk_typck_err "CqlVarint" t
        (.MismatchedType [ColumnType.Varint]))) ∧
    cql_decimal_type_check t = (if t ∈ [ColumnType.Decimal] then .ok ()
      else .error (mk_typck_err "CqlDecimal" t
        (.MismatchedType [ColumnType.Decimal]))) ∧
    counter_type_check t = (if t ∈ [ColumnType.Counter] then .ok ()
      else .error (mk_typck_err "Counter" t
        (.MismatchedType [ColumnType.Counter]))) ∧
    blob_slice_type_check t = (if t ∈ [ColumnType.Blob] then .ok ()
      else .error (mk_typck_err "&[u8]" t
        (.MismatchedType [ColumnType.Blob]))) ∧
    blob_vec_type_check t = (if t ∈ [ColumnType.Blob] then .ok ()
      else .error (mk_typck_err "Vec<u8>" t
        (.MismatchedType [ColumnType.Blob]))) ∧
    blob_bytes_type_check t = (if t ∈ [ColumnType.Blob] then .ok ()
      else .error (mk_typck_err "Bytes" t
        (.MismatchedType [ColumnType.Blob]))) ∧
    str_type_check t = (if t ∈ [ColumnType.Ascii, ColumnType.Text] then .ok ()
      else .error (mk_typck_err "&str" t
        (.MismatchedType [ColumnType.Ascii, ColumnType.Text]))) ∧
    string_type_check t =
      (if t ∈ [ColumnType.Ascii, ColumnType.Text] then .ok ()
      else .error (mk_typck_err "String" t
        (.MismatchedType [ColumnType.Ascii, ColumnType.Text]))) := by
  cases t <;>
    exact ⟨rfl, rfl, rfl, rfl, rfl, rfl, rfl, rfl, rfl, rfl, rfl, rfl, rfl,
      rfl, rfl⟩

/-- C8: `CqlDecimal` decode on a present slot of at least 4 bytes takes the
first 4 bytes as a big-endian signed 32-bit scale and keeps the remaining
bytes as the sign-extended big-endian unscaled integer; a present slot
shorter than 4 bytes fails with a wrapped frame-read error; and the 5-byte
payload `00 00 00 02 7B` under `Decimal` decodes to unscaled integer 123
with scale 2. -/
theorem cql_decimal_decode_spec (typ : ColumnType) (s : List Nat) :
    (4 ≤ s.length → cql_decimal_deserialize typ (some s) =
      .ok ⟨⟨s.drop 4⟩, int_from_be_bytes 4 (s.take 4)⟩) ∧
    (s.length < 4 → cql_decimal_deserialize typ (some s) =
      .error (mk_deser_err "CqlDecimal" typ (.GenericParseError
        ⟨"read_int: failed to read 4 bytes"⟩))) ∧
    (cql_decimal_deserialize ColumnType.Decimal
        (some [0x00, 0x00, 0x00, 0x02, 0x7B]) = .ok ⟨⟨[0x7B]⟩, 2⟩ ∧
      CqlVarint.toInt ⟨[0x7B]⟩ = 123) := by
  refine ⟨fun h => ?_, fun h => ?_, by decide, by decide⟩
  · simp [cql_decimal_deserialize, ensure_not_null_slice,
      ensure_not_null_frame_slice, read_int, Nat.not_lt.mpr h]
  · simp [cql_decimal_deserialize, ensure_not_null_slice,
      ensure_not_null_frame_slice, read_int, h]

/-- Closed instance of `cql_decimal_decode_spec`: the example payload and a
2-byte payload that is too short for the scale. -/
theorem cql_decimal_decode_spec_witness :
    cql_decimal_deserialize ColumnType.Decimal
        (some [0x00, 0x00, 0x00, 0x02, 0x7B]) =
      .ok ⟨⟨[0x00, 0x00, 0x00, 0x02, 0x7B].drop 4⟩,
        int_from_be_bytes 4 ([0x00, 0x00, 0x00, 0x02, 0x7B].take 4)⟩ ∧
    cql_decimal_deserialize ColumnType.Decimal (some [0x00, 0x00]) =
      .error (mk_deser_err "CqlDecimal" ColumnType.Decimal
        (.GenericParseError ⟨"read_int: failed to read 4 bytes"⟩)) :=
  ⟨(cql_decimal_decode_spec ColumnType.Decimal
      [0x00, 0x00, 0x00, 0x02, 0x7B]).1 (by decide),
    (cql_decimal_decode_spec ColumnType.Decimal [0x00, 0x00]).2.1 (by decide)⟩

/-- C10: for every fixed-width numeric binding and every present slot of the
expected width, decode succeeds with the big-endian-decoded value under every
descriptor, accepted or not, and the result is the same under any two
descriptors: the descriptor never influences a successful decode. -/
theorem fixed_numeric_descriptor_independent (t u : ColumnType)
    (s1 s2 s4 s8 : List Nat) :
    (s1.length = 1 →
      i8_deserialize t (some s1) = .ok (int_from_be_bytes 1 s1) ∧
      i8_deserialize t (some s1) = i8_deserialize u (some s1)) ∧
    (s2.length = 2 →
      i16_deserialize t (some s2) = .ok (int_from_be_bytes 2 s2) ∧
      i16_deserialize t (some s2) = i16_deserialize u (some s2)) ∧
    (s4.length = 4 →
      (i32_deserialize t (some s4) = .ok (int_from_be_bytes 4 s4) ∧
        i32_deserialize t (some s4) = i32_deserialize u (some s4)) ∧
      (f32_deserialize t (some s4) = .ok (be_bytes_to_nat s4) ∧
        f32_deserialize t (some s4) = f32_deserialize u (some s4))) ∧
    (s8.length = 8 →
      (i64_deserialize t (some s8) = .ok (int_from_be_bytes 8 s8) ∧
        i64_deserialize t (some s8) = i64_deserialize u (some s8)) ∧
      (f64_deserialize t (some s8) = .ok (be_bytes_to_nat s8) ∧
        f64_deserialize t (some s8) = f64_deserialize u (some s8))) := by
  refine ⟨fun h => ⟨?_, ?_⟩, fun h => ⟨?_, ?_⟩,
    fun h => ⟨⟨?_, ?_⟩, ⟨?_, ?_⟩⟩, fun h => ⟨⟨?_, ?_⟩, ⟨?_, ?_⟩⟩⟩ <;>
    simp only [i8_deserialize, i16_deserialize, i32_deserialize,
      i64_deserialize, f32_deserialize, f64_deserialize,
      fixed_numeric_deserialize_exact _ _ _ _ h,
      fixed_float_deserialize_exact _ _ _ _ h]

/-- Closed instance of `fixed_numeric_descriptor_independent` under the
unaccepted descriptor `Uuid`. -/
theorem fixed_numeric_descriptor_independent_witness :
    i8_deserialize ColumnType.Uuid (some [5]) =
      .ok (int_from_be_bytes 1 [5]) ∧
    i16_deserialize ColumnType.Uuid (some [1, 2]) =
      .ok (int_from_be_bytes 2 [1, 2]) ∧
    i32_deserialize ColumnType.Uuid (some [1, 2, 3, 4]) =
      i32_deserialize ColumnType.Int (some [1, 2, 3, 4]) ∧
    f32_deserialize ColumnType.Uuid (some [63, 0, 0, 0]) =
      .ok (be_bytes_to_nat [63, 0, 0, 0]) ∧
    i64_deserialize ColumnType.Uuid (some [0, 0, 0, 0, 0, 0, 0, 255]) =
      .ok (int_from_be_bytes 8 [0, 0, 0, 0, 0, 0, 0, 255]) ∧
    f64_deserialize ColumnType.Uuid (some [64, 0, 0, 0, 0, 0, 0, 0]) =
      f64_deserialize ColumnType.Double (some [64, 0, 0, 0, 0, 0, 0, 0]) :=
  ⟨((fixed_numeric_descriptor_independent ColumnType.Uuid ColumnType.Int
      [5] [1, 2] [1, 2, 3, 4] [0, 0, 0, 0, 0, 0, 0, 255]).1 (by decide)).1,
    ((fixed_numeric_descriptor_independent ColumnType.Uuid ColumnType.Int
      [5] [1, 2] [1, 2, 3, 4] [0, 0, 0, 0, 0, 0, 0, 255]).2.1 (by decide)).1,
    (((fixed_numeric_descriptor_independent ColumnType.Uuid ColumnType.Int
      [5] [1, 2] [1, 2, 3, 4]
      [0, 0, 0, 0, 0, 0, 0, 255]).2.2.1 (by decide)).1).2,
    (((fixed_numeric_descriptor_independent ColumnType.Uuid ColumnType.Int
      [5] [1, 2] [63, 0, 0, 0]
      [0, 0, 0, 0, 0, 0, 0, 255]).2.2.1 (by decide)).2).1,
    (((fixed_numeric_descriptor_independent ColumnType.Uuid ColumnType.Int
      [5] [1, 2] [1, 2, 3, 4]
      [0, 0, 0, 0, 0, 0, 0, 255]).2.2.2 (by decide)).1).1,
    (((fixed_numeric_descriptor_independent ColumnType.Uuid ColumnType.Double
      [5] [1, 2] [1, 2, 3, 4]
      [64, 0, 0, 0, 0, 0, 0, 0]).2.2.2 (by decide)).2).2⟩

/-- C3: for every fixed-width numeric or boolean binding and every
representable value, decoding the exact-width big-endian encoding of the
value under an accepted descriptor succeeds and returns the value (floats by
bit pattern). -/
theorem fixed_width_roundtrip (v : Int) (n4 n8 : Nat) (b : Bool) :
    (-(2 ^ 7) ≤ v → v < 2 ^ 7 →
      i8_deserialize ColumnType.TinyInt (some (int_to_be_bytes_tc 1 v)) =
        .ok v) ∧
    (-(2 ^ 15) ≤ v → v < 2 ^ 15 →
      i16_deserialize ColumnType.SmallInt (some (int_to_be_bytes_tc 2 v)) =
        .ok v) ∧
    (-(2 ^ 31) ≤ v → v < 2 ^ 31 →
      i32_deserialize ColumnType.Int (some (int_to_be_bytes_tc 4 v)) =
        .ok v) ∧
    (-(2 ^ 63) ≤ v → v < 2 ^ 63 →
      i64_deserialize ColumnType.BigInt (some (int_to_be_bytes_tc 8 v)) =
          .ok v ∧
      i64_deserialize ColumnType.Counter (some (int_to_be_bytes_tc 8 v)) =
        .ok v) ∧
    (n4 < 2 ^ 32 →
      f32_deserialize ColumnType.Float (some (nat_to_be_bytes 4 n4)) =
        .ok n4) ∧
    (n8 < 2 ^ 64 →
      f64_deserialize ColumnType.Double (some (nat_to_be_bytes 8 n8)) =
        .ok n8) ∧
    bool_deserialize ColumnType.Boolean (some (bool_to_be_bytes b)) = .ok b := by
  refine ⟨fun h1 h2 => fixed_numeric_roundtrip _ 1 (by norm_num) _ v h1 h2,
    fun h1 h2 => fixed_numeric_roundtrip _ 2 (by norm_num) _ v h1 h2,
    fun h1 h2 => fixed_numeric_roundtrip _ 4 (by norm_num) _ v h1 h2,
    fun h1 h2 => ⟨fixed_numeric_roundtrip _ 8 (by norm_num) _ v h1 h2,
      fixed_numeric_roundtrip _ 8 (by norm_num) _ v h1 h2⟩,
    fun h => fixed_float_roundtrip _ 4 _ n4 h,
    fun h => fixed_float_roundtrip _ 8 _ n8 h, ?_⟩
  cases b <;> rfl

/-- Closed instance of `fixed_width_roundtrip` at `v = -5`, bit patterns 77
and 3, and `true`. -/
theorem fixed_width_roundtrip_witness :
    i8_deserialize ColumnType.TinyInt (some (int_to_be_bytes_tc 1 (-5))) =
      .ok (-5) ∧
    i16_deserialize ColumnType.SmallInt (some (int_to_be_bytes_tc 2 (-5))) =
      .ok (-5) ∧
    i32_deserialize ColumnType.Int (some (int_to_be_bytes_tc 4 (-5))) =
      .ok (-5) ∧
    i64_deserialize ColumnType.BigInt (some (int_to_be_bytes_tc 8 (-5))) =
      .ok (-5) ∧
    i64_deserialize ColumnType.Counter (some (int_to_be_bytes_tc 8 (-5))) =
      .ok (-5) ∧
    f32_deserialize ColumnType.Float (some (nat_to_be_bytes 4 77)) = .ok 77 ∧
    f64_deserialize ColumnType.Double (some (nat_to_be_bytes 8 3)) = .ok 3 ∧
    bool_deserialize ColumnType.Boolean (some (bool_to_be_bytes true)) =
      .ok true := by
  obtain ⟨h1, h2, h3, h4, h5, h6, h7⟩ := fixed_width_roundtrip (-5) 77 3 true
  exact ⟨h1 (by decide) (by decide), h2 (by decide) (by decide),
    h3 (by decide) (by decide), (h4 (by decide) (by decide)).1,
    (h4 (by decide) (by decide)).2, h5 (by decide), h6 (by decide), h7⟩

/-- C1 counterexample: the slot `[0x80]` is not valid UTF-8, yet under the
`Ascii` descriptor both text bindings return `ExpectedAscii`, not
`InvalidUtf8` — the ASCII check runs before UTF-8 validation, so the claimed
"InvalidUtf8 regardless of tag" fails at the `Ascii` tag. -/
theorem text_invalid_utf8_tag_counterexample :
    valid_utf8 [0x80] = false ∧
    str_deserialize ColumnType.Ascii (some [0x80]) =
      .error (mk_deser_err "&str" ColumnType.Ascii .ExpectedAscii) ∧
    string_deserialize ColumnType.Ascii (some [0x80]) =
      .error (mk_deser_err "String" ColumnType.Ascii .ExpectedAscii) ∧
    str_deserialize ColumnType.Ascii (some [0x80]) ≠
      .error (mk_deser_err "&str" ColumnType.Ascii .InvalidUtf8) ∧
    string_deserialize ColumnType.Ascii (some [0x80]) ≠
      .error (mk_deser_err "String" ColumnType.Ascii .InvalidUtf8) := by
  decide

/-- C1 (amended): for the text bindings, a present slot with invalid UTF-8
yields `InvalidUtf8` under the `Text` tag but `ExpectedAscii` under the
`Ascii` tag (every invalid-UTF-8 slice contains a byte above `0x7F`, and the
ASCII check precedes UTF-8 validation); a valid-UTF-8 slot containing a byte
at or above `0x80` decodes successfully under `Text` and yields
`ExpectedAscii` under `Ascii`. -/
theorem text_decode_utf8_ascii_spec (s : List Nat) :
    (valid_utf8 s = false →
      str_deserialize ColumnType.Text (some s) =
        .error (mk_deser_err "&str" ColumnType.Text .InvalidUtf8) ∧
      string_deserialize ColumnType.Text (some s) =
        .error (mk_deser_err "String" ColumnType.Text .InvalidUtf8) ∧
      str_deserialize ColumnType.Ascii (some s) =
        .error (mk_deser_err "&str" ColumnType.Ascii .ExpectedAscii) ∧
      string_deserialize ColumnType.Ascii (some s) =
        .error (mk_deser_err "String" ColumnType.Ascii .ExpectedAscii)) ∧
    (valid_utf8 s = true → (∃ b ∈ s, 0x80 ≤ b) →
      str_deserialize ColumnType.Text (some s) = .ok s ∧
      string_deserialize ColumnType.Text (some s) = .ok s ∧
      str_deserialize ColumnType.Ascii (some s) =
        .error (mk_deser_err "&str" ColumnType.Ascii .ExpectedAscii) ∧
      string_deserialize ColumnType.Ascii (some s) =
        .error (mk_deser_err "String" ColumnType.Ascii .ExpectedAscii)) := by
  constructor
  · intro hinv
    have hna : is_ascii_bytes s = false := by
      cases hA : is_ascii_bytes s
      · rfl
      · rw [valid_utf8_of_is_ascii s hA] at hinv
        exact absurd hinv (by simp)
    refine ⟨?_, ?_, ?_, ?_⟩ <;>
      simp [str_deserialize, string_deserialize, ensure_not_null_slice,
        ensure_not_null_frame_slice, check_ascii, hna, hinv]
  · intro hval hex
    have hna : is_ascii_bytes s = false := by
      have hnt : ¬ is_ascii_bytes s = true := by
        intro hA
        obtain ⟨b, hb, hge⟩ := hex
        simp only [is_ascii_bytes, List.all_eq_true, decide_eq_true_eq] at hA
        exact absurd (hA b hb) (by omega)
      cases hA : is_ascii_bytes s
      · rfl
      · exact absurd hA hnt
    refine ⟨?_, ?_, ?_, ?_⟩ <;>
      simp [str_deserialize, string_deserialize, ensure_not_null_slice,
        ensure_not_null_frame_slice, check_ascii, hna, hval]

/-- Closed instance of `text_decode_utf8_ascii_spec`: `[0xC3, 0x28]` is
invalid UTF-8; the UTF-8 encoding of "café" is valid and non-ASCII. -/
theorem text_decode_utf8_ascii_spec_witness :
    str_deserialize ColumnType.Text (some [0xC3, 0x28]) =
      .error (mk_deser_err "&str" ColumnType.Text .InvalidUtf8) ∧
    str_deserialize ColumnType.Ascii (some [0xC3, 0x28]) =
      .error (mk_deser_err "&str" ColumnType.Ascii .ExpectedAscii) ∧
    str_deserialize ColumnType.Text (some [0x63, 0x61, 0x66, 0xC3, 0xA9]) =
      .ok [0x63, 0x61, 0x66, 0xC3, 0xA9] ∧
    str_deserialize ColumnType.Ascii (some [0x63, 0x61, 0x66, 0xC3, 0xA9]) =
      .error (mk_deser_err "&str" ColumnType.Ascii .ExpectedAscii) := by
  obtain ⟨hA, _⟩ := text_decode_utf8_ascii_spec [0xC3, 0x28]
  obtain ⟨_, hB⟩ := text_decode_utf8_ascii_spec [0x63, 0x61, 0x66, 0xC3, 0xA9]
  obtain ⟨h1, _, h2, _⟩ := hA (by decide)
  obtain ⟨h3, _, h4, _⟩ := hB (by decide) ⟨0xC3, by decide, by decide⟩
  exact ⟨h1, h2, h3, h4⟩
